import Mathlib

/-!
Verification of the kalibr-sdk-python client core: pricing table,
router dispatch/fallback state machine, outcome reporting, trace-id
correlation bridge, event batching queue, and the intelligence-client
singleton accessor. Definitions are shallow embeddings of the Python
source in `src/kalibr` and `src/kalibr_crewai`; machine reals are
modelled as exact rationals.
-/

namespace Kalibr

/-! ## Pricing table (`src/kalibr/pricing.py`) -/

/-- Substring test on character lists: does `sub` occur inside the second
list?  Mirrors the Python `sub in s` test for strings. -/
def startsWithList : List Char → List Char → Bool
  | [], _ => true
  | _ :: _, [] => false
  | a :: as, b :: bs => a == b && startsWithList as bs

def containsList (sub : List Char) : List Char → Bool
  | [] => sub.isEmpty
  | c :: rest => startsWithList sub (c :: rest) || containsList sub rest

/-- Python `sub in s` for strings. -/
def strContainsSub (s sub : String) : Bool :=
  containsList sub.toList s.toList

/-- Characters before the first occurrence of `sub`; if `sub` does not
occur, the whole list.  Mirrors Python `s.split(sub)[0]`. -/
def takeUntilSub (sub : List Char) : List Char → List Char
  | [] => []
  | c :: rest =>
    if startsWithList sub (c :: rest) then []
    else c :: takeUntilSub sub rest

def pySplitHead (s sub : String) : String :=
  String.mk (takeUntilSub sub.toList s.toList)

/-- ASCII lowercasing, `s.lower()` for the ASCII model names that occur
here (written over the character list so the kernel can evaluate it). -/
def strToLower (s : String) : String :=
  String.mk (s.toList.map fun c =>
    if c.toNat ≥ 65 && c.toNat ≤ 90 then Char.ofNat (c.toNat + 32) else c)

/-- `MODEL_PRICING["openai"]`: prices in USD per 1M tokens, as exact
rationals. -/
def openaiModels : List (String × (ℚ × ℚ)) :=
  [ ("gpt-5", (5.00, 15.00))
  , ("gpt-5-turbo", (2.50, 7.50))
  , ("gpt-4", (30.00, 60.00))
  , ("gpt-4-turbo", (10.00, 30.00))
  , ("gpt-4o", (2.50, 10.00))
  , ("gpt-4o-mini", (0.15, 0.60))
  , ("gpt-3.5-turbo", (0.50, 1.50))
  , ("gpt-3.5-turbo-16k", (1.00, 2.00)) ]

/-- `MODEL_PRICING["anthropic"]`. -/
def anthropicModels : List (String × (ℚ × ℚ)) :=
  [ ("claude-4-opus", (15.00, 75.00))
  , ("claude-4-sonnet", (3.00, 15.00))
  , ("claude-sonnet-4", (3.00, 15.00))
  , ("claude-3-7-sonnet", (3.00, 15.00))
  , ("claude-3-5-sonnet", (3.00, 15.00))
  , ("claude-3-opus", (15.00, 75.00))
  , ("claude-3-sonnet", (3.00, 15.00))
  , ("claude-3-haiku", (0.25, 1.25))
  , ("claude-2.1", (8.00, 24.00))
  , ("claude-2.0", (8.00, 24.00))
  , ("claude-instant-1.2", (0.80, 2.40)) ]

/-- `MODEL_PRICING["google"]`. -/
def googleModels : List (String × (ℚ × ℚ)) :=
  [ ("gemini-2.5-pro", (1.25, 5.00))
  , ("gemini-2.5-flash", (0.075, 0.30))
  , ("gemini-2.0-flash", (0.075, 0.30))
  , ("gemini-2.0-flash-thinking", (0.075, 0.30))
  , ("gemini-1.5-pro", (1.25, 5.00))
  , ("gemini-1.5-flash", (0.075, 0.30))
  , ("gemini-1.5-flash-8b", (0.0375, 0.15))
  , ("gemini-1.0-pro", (0.50, 1.50))
  , ("gemini-pro", (0.50, 1.50)) ]

/-- `MODEL_PRICING.get(vendor, ...)` as a total function; an unknown
vendor yields the empty table. -/
def MODEL_PRICING (vendor : String) : List (String × (ℚ × ℚ)) :=
  if vendor = "openai" then openaiModels
  else if vendor = "anthropic" then anthropicModels
  else if vendor = "google" then googleModels
  else []

/-- `DEFAULT_PRICING.get(vendor)`. -/
def DEFAULT_PRICING (vendor : String) : Option (ℚ × ℚ) :=
  if vendor = "openai" then some (30.00, 60.00)
  else if vendor = "anthropic" then some (15.00, 75.00)
  else if vendor = "google" then some (1.25, 5.00)
  else none

/-- `normalize_model_name(vendor, model_name)` from pricing.py: direct
table match first, then per-vendor fuzzy substring rules, otherwise the
lowercased input. -/
def normalize_model_name (vendor model_name : String) : String :=
  let vendor := strToLower vendor
  let model_lower := strToLower model_name
  let vendor_models := MODEL_PRICING vendor
  if (vendor_models.lookup model_lower).isSome then model_lower
  else if vendor = "openai" then
    -- base_model = model_lower.split("-2")[0] if "-2" in model_lower else model_lower
    let base_model := pySplitHead model_lower "-2"
    if (vendor_models.lookup base_model).isSome then base_model
    else if strContainsSub model_lower "gpt-4o-mini" then "gpt-4o-mini"
    else if strContainsSub model_lower "gpt-4o" then "gpt-4o"
    else if strContainsSub model_lower "gpt-5-turbo" then "gpt-5-turbo"
    else if strContainsSub model_lower "gpt-5" then "gpt-5"
    else if strContainsSub model_lower "gpt-4-turbo" then "gpt-4-turbo"
    else if strContainsSub model_lower "gpt-4" then "gpt-4"
    else if strContainsSub model_lower "gpt-3.5-turbo-16k" then "gpt-3.5-turbo-16k"
    else if strContainsSub model_lower "gpt-3.5" then "gpt-3.5-turbo"
    else model_lower
  else if vendor = "anthropic" then
    if strContainsSub model_lower "claude-3.5-sonnet"
        || strContainsSub model_lower "claude-3-5-sonnet" then "claude-3-5-sonnet"
    else if strContainsSub model_lower "claude-sonnet-4"
        || strContainsSub model_lower "sonnet-4" then "claude-sonnet-4"
    else if strContainsSub model_lower "claude-3-7-sonnet" then "claude-3-7-sonnet"
    else if strContainsSub model_lower "claude-4-opus" then "claude-4-opus"
    else if strContainsSub model_lower "claude-4-sonnet" then "claude-4-sonnet"
    else if strContainsSub model_lower "claude-3-opus" then "claude-3-opus"
    else if strContainsSub model_lower "claude-3-sonnet" then "claude-3-sonnet"
    else if strContainsSub model_lower "claude-3-haiku" then "claude-3-haiku"
    else if strContainsSub model_lower "claude-2.1" then "claude-2.1"
    else if strContainsSub model_lower "claude-2.0"
        || strContainsSub model_lower "claude-2" then "claude-2.0"
    else if strContainsSub model_lower "claude-instant" then "claude-instant-1.2"
    else model_lower
  else if vendor = "google" then
    if strContainsSub model_lower "gemini-2.5-pro" then "gemini-2.5-pro"
    else if strContainsSub model_lower "gemini-2.5-flash" then "gemini-2.5-flash"
    else if strContainsSub model_lower "gemini-2.0-flash-thinking" then "gemini-2.0-flash-thinking"
    else if strContainsSub model_lower "gemini-2.0-flash" then "gemini-2.0-flash"
    else if strContainsSub model_lower "gemini-1.5-flash-8b" then "gemini-1.5-flash-8b"
    else if strContainsSub model_lower "gemini-1.5-flash" then "gemini-1.5-flash"
    else if strContainsSub model_lower "gemini-1.5-pro" then "gemini-1.5-pro"
    else if strContainsSub model_lower "gemini-1.0-pro"
        || strContainsSub model_lower "gemini-pro" then "gemini-pro"
    else model_lower
  else model_lower

/-- `get_pricing(vendor, model_name)`: pricing record (input price,
output price) and the normalized name; unmatched models fall back to the
vendor default, unknown vendors to (20, 60). -/
def get_pricing (vendor model_name : String) : (ℚ × ℚ) × String :=
  let vendor := strToLower vendor
  let normalized_model := normalize_model_name vendor model_name
  let pricing :=
    match (MODEL_PRICING vendor).lookup normalized_model with
    | some p => p
    | none =>
      match DEFAULT_PRICING vendor with
      | some p => p
      | none => (20.00, 60.00)
  (pricing, normalized_model)

/-- Rounding to 6 decimal places.  Python `round` on floats rounds the
nearest binary double half-to-even; on the exact rationals used here no
theorem below depends on the tie rule, and we use round-half-up. -/
def round6 (x : ℚ) : ℚ := (⌊x * 1000000 + 1 / 2⌋ : ℚ) / 1000000

/-- `compute_cost(vendor, model_name, input_tokens, output_tokens)`. -/
def compute_cost (vendor model_name : String)
    (input_tokens output_tokens : ℕ) : ℚ :=
  let pricing := (get_pricing vendor model_name).1
  round6 ((input_tokens : ℚ) / 1000000 * pricing.1
    + (output_tokens : ℚ) / 1000000 * pricing.2)

/-! ## Router data model (`src/kalibr/router.py`)

External effects (the `decide` HTTP call, the provider calls, the
`report_outcome` HTTP call, `uuid.uuid4().hex`) are passed to the model
as explicit parameters; everything else is translated from the source. -/

/-- A Python exception, reduced to its class name and message;
`type(e).__name__` is the `name` field. -/
structure PyError where
  name : String
  msg : String
deriving DecidableEq, Repr

/-- Parameter maps (`params` dicts), as association lists. -/
abbrev Params := List (String × String)

/-- A normalized path as produced by `Router._normalize_paths`:
a model id, optional tools, optional params. -/
structure DPath where
  model : String
  tools : Option String := none
  params : Option Params := none
deriving DecidableEq, Repr

/-- The decision dict returned by `decide(goal=...)`; `.get` accesses
become `Option` fields. -/
structure Decision where
  model_id : Option String := none
  tool_id : Option String := none
  params : Option Params := none
  trace_id : Option String := none
  path_id : Option String := none
  reason : Option String := none
  exploration : Bool := false
  confidence : ℚ := 0
deriving Repr

/-- What `self._last_decision` holds after step 1 of `completion()`:
a forced dict, the decision dict, or a fallback dict recording the
decide error. -/
inductive LastDecision where
  | forced (model_id : String)
  | decided (d : Decision)
  | fallback (model_id : String) (error : String)
deriving Repr

/-- Router instance state: goal, declared paths, success predicate and
the per-cycle mutable fields. -/
structure RouterState where
  goal : String
  paths : List DPath
  success_when : Option (String → Bool) := none
  last_trace_id : Option String := none
  last_model_id : Option String := none
  last_decision : Option LastDecision := none
  outcome_reported : Bool := false

/-- `paths or ["gpt-4o"]` in `Router.__init__`: an empty declared list
falls back to the single default path. -/
def initPaths (paths : List DPath) : List DPath :=
  if paths = [] then [{ model := "gpt-4o" }] else paths

/-- An OpenAI-shaped completion response, reduced to the fields the
router reads and writes: the first choice content and the
`kalibr_trace_id` attribute attached before returning. -/
structure Resp where
  content : String
  kalibr_trace_id : Option String := none
deriving DecidableEq, Repr

/-- One outcome report handed to `report_outcome` (the body of the
network call attempted by `Router.report`). -/
structure OutcomeReport where
  trace_id : String
  goal : String
  success : Bool
  failure_reason : Option String := none
  score : Option ℚ := none
  model_id : Option String := none
deriving Repr

/-- Result of one `Router.report` call: the state afterwards, the list
of network send attempts made (empty or a singleton), whether a
`ValueError` was raised, and whether the duplicate-report warning was
logged. -/
structure ReportResult where
  st : RouterState
  sent : List OutcomeReport
  raised : Bool
  warned : Bool

/-- Python `a or b` for an optional string against a string default:
`None` and the empty string are falsy. -/
def pyOrStr (a : Option String) (b : String) : String :=
  match a with
  | some s => if s = "" then b else s
  | none => b

/-- Python `a or b` for two optional strings (`trace_id or
self._last_trace_id`): `None` and the empty string are falsy. -/
def pyOrOpt (a b : Option String) : Option String :=
  match a with
  | some s => if s = "" then b else some s
  | none => b

/-- `Router.report(success, reason, score, trace_id)` with the network
send outcome (`send_ok`) passed in: if the outcome was already reported
this cycle, warn and return; if no trace id is available raise
`ValueError`; otherwise attempt `report_outcome` and set the reported
flag only when the send succeeded (a send failure is caught and
logged). -/
def reportStep (st : RouterState) (success : Bool) (reason : Option String)
    (score : Option ℚ) (trace_arg : Option String) (send_ok : Bool) :
    ReportResult :=
  if st.outcome_reported then
    { st := st, sent := [], raised := false, warned := true }
  else
    -- trace_id = trace_id or self._last_trace_id
    match pyOrOpt trace_arg st.last_trace_id with
    | none => { st := st, sent := [], raised := true, warned := false }
    | some t =>
      if t = "" then { st := st, sent := [], raised := true, warned := false }
      else
        let rep : OutcomeReport :=
          { trace_id := t, goal := st.goal, success := success,
            failure_reason := reason, score := score,
            model_id := st.last_model_id }
        if send_ok then
          { st := { st with outcome_reported := true }, sent := [rep],
            raised := false, warned := false }
        else
          { st := st, sent := [rep], raised := false, warned := false }

/-! ## Trace correlation bridge (`_create_context_with_trace_id`) -/

def hexDigitVal (c : Char) : Option ℕ :=
  if '0' ≤ c ∧ c ≤ '9' then some (c.toNat - '0'.toNat)
  else if 'a' ≤ c ∧ c ≤ 'f' then some (c.toNat - 'a'.toNat + 10)
  else if 'A' ≤ c ∧ c ≤ 'F' then some (c.toNat - 'A'.toNat + 10)
  else none

def parseHexAux : List Char → ℕ → Option ℕ
  | [], acc => some acc
  | c :: rest, acc =>
    match hexDigitVal c with
    | some v => parseHexAux rest (acc * 16 + v)
    | none => none

/-- Python `int(s, 16)` restricted to plain hexadecimal digit strings
(the only form reaching the bridge: `uuid4().hex` or the service's
32-hex-digit trace id); the empty or malformed string is a
`ValueError`, modelled as `none`. -/
def pyIntHex (s : String) : Option ℕ :=
  match s.toList with
  | [] => none
  | cs => parseHexAux cs 0

/-- `_create_context_with_trace_id(trace_id_hex)`: parse the hex string
to a 128-bit integer; a parse failure or the all-zero value yields no
context (`None`), otherwise a context carrying that trace id.  The
OTel span plumbing is reduced to the carried trace-id integer. -/
def _create_context_with_trace_id (trace_id_hex : String) : Option ℕ :=
  match pyIntHex trace_id_hex with
  | none => none
  | some n => if n = 0 then none else some n

/-! ## `Router.completion` step 1: routing decision -/

/-- Outcome of completion step 1: chosen model/tool/params and the
`_last_decision` record. -/
structure SelectResult where
  model_id : String
  tool_id : Option String
  params : Params
  last_decision : LastDecision
deriving Repr

/-- The default path used by `paths.headD`; `self._paths` is nonempty by
construction (`__init__` replaces an empty list by `["gpt-4o"]`, cf.
`initPaths`), so the default is never exercised from `completionModel`
under that invariant. -/
def defaultDPath : DPath := { model := "gpt-4o" }

/-- Step 1 of `completion()`: forced model, successful decision (with
Python-truthiness fallbacks on `model_id` and `params`), or local
fallback to the first declared path when `decide` raised. -/
def selectStep (paths : List DPath) (force_model : Option String)
    (decide_result : Except PyError Decision) : SelectResult :=
  match force_model with
  | some m =>
    { model_id := m, tool_id := none, params := [],
      last_decision := .forced m }
  | none =>
    match decide_result with
    | .ok d =>
      { model_id := pyOrStr d.model_id (paths.headD defaultDPath).model,
        tool_id := d.tool_id, params := d.params.getD [],
        last_decision := .decided d }
    | .error e =>
      let p0 := paths.headD defaultDPath
      { model_id := p0.model, tool_id := p0.tools,
        params := p0.params.getD [],
        last_decision := .fallback p0.model (e.name ++ ": " ++ e.msg) }

/-- The `trace_id` field read from `self._last_decision`: only a real
decision dict carries one. -/
def decisionTraceId : LastDecision → Option String
  | .decided d => d.trace_id
  | _ => none

/-- Step 2 of `completion()`: use the decision's trace id when truthy,
otherwise the freshly generated `uuid4().hex` value. -/
def resolveTraceId (ld : LastDecision) (fresh : String) : String :=
  match decisionTraceId ld with
  | some t => if t = "" then fresh else t
  | none => fresh

/-! ## `Router.completion` step 5: dispatch list and attempt loop -/

/-- The remaining declared paths appended after the selected path,
skipping any whose model id is already in `seen` (and growing `seen` as
paths are kept). -/
def addRemainingPaths : List DPath → List String → List DPath
  | [], _ => []
  | p :: rest, seen =>
    if p.model ∈ seen then addRemainingPaths rest seen
    else p :: addRemainingPaths rest (p.model :: seen)

/-- The Dispatch Attempt list (`paths_to_try`): the selected path first,
then remaining declared paths deduplicated by model id. -/
def buildPathsToTry (selected : DPath) (declared : List DPath) : List DPath :=
  selected :: addRemainingPaths declared [selected.model]

/-- Python `{**a, **b}`: the merged dict, values of `b` winning on key
conflicts.  Only the mapping matters; keys are reordered. -/
def mergeParams (a b : Params) : Params :=
  a.filter (fun kv => (b.lookup kv.1).isNone) ++ b

/-- Span attribute values (`set_attribute`). -/
inductive AttrVal where
  | str (s : String)
  | bool (b : Bool)
  | num (q : ℚ)
deriving Repr

/-- Result of the attempt loop: the returned response or the exception
re-raised after exhaustion, the router state, and every outcome send
attempt made on the way. -/
structure LoopResult where
  result : Except PyError Resp
  st : RouterState
  reports : List OutcomeReport
  send_idx : ℕ

/-- `raise last_exception` with `last_exception = None`; unreachable
because the dispatch list is nonempty. -/
def noneRaised : PyError :=
  { name := "TypeError", msg := "exceptions must derive from BaseException" }

/-- The auto-report performed after a successful dispatch: when a
success predicate is configured and no outcome was reported yet this
cycle, evaluate it on the response content and call `report`; returns
the state afterwards and the send attempts made. -/
def autoReport (st : RouterState) (content : String) (ok : Bool) :
    RouterState × List OutcomeReport :=
  match st.success_when with
  | some pred =>
    if st.outcome_reported then (st, [])
    else
      let rr := reportStep st (pred content) none none none ok
      (rr.st, rr.sent)
  | none => (st, [])

/-- The provider-dispatch loop of `completion()`: try each path in
order; on success record the serving model, auto-report when a success
predicate is configured, attach the trace id to the response and
return; on failure report a failure outcome for the attempt, clear the
reported flag, and continue; after exhaustion re-raise the last
exception.  `dispatch` is the provider call `self._dispatch(model,
messages, tools, **{**params, **kwargs})` and `send_ok k` is the
network outcome of the k-th `report_outcome` attempt of this call. -/
def attemptLoop (trace_id : String)
    (dispatch : String → Option String → Params → Except PyError Resp)
    (kwargs : Params) (send_ok : ℕ → Bool) :
    List DPath → RouterState → List OutcomeReport → ℕ → Option PyError →
    LoopResult
  | [], st, reports, k, last_exc =>
    { result := .error (last_exc.getD noneRaised), st := st,
      reports := reports, send_idx := k }
  | p :: rest, st, reports, k, _ =>
    match dispatch p.model p.tools (mergeParams (p.params.getD []) kwargs) with
    | .ok r =>
      let ar := autoReport { st with last_model_id := some p.model }
        r.content (send_ok k)
      { result := .ok { r with kalibr_trace_id := some trace_id },
        st := ar.1, reports := reports ++ ar.2,
        send_idx := k + ar.2.length }
    | .error e =>
      -- report failure for this path (ValueError from report is swallowed),
      -- then reset the flag so the next attempt can report
      let rr := reportStep st false (some ("provider_error: " ++ e.name))
        none none (send_ok k)
      let st2 := { rr.st with outcome_reported := false }
      attemptLoop trace_id dispatch kwargs send_ok rest st2
        (reports ++ rr.sent) (k + rr.sent.length) (some e)

/-- Everything `completion()` produces: the return value or raised
exception, the final router state, the attributes set on the routing
span, the outcome send attempts, and the OTel context built by the
trace bridge. -/
structure CompletionResult where
  result : Except PyError Resp
  st : RouterState
  spanAttrs : List (String × AttrVal)
  reports : List OutcomeReport
  otel_context : Option ℕ

/-- `Router.completion(messages, force_model, **kwargs)` with the
external effects (`decide` result, fresh uuid hex, provider dispatch,
report-outcome network results) passed as parameters. -/
def completionModel (st0 : RouterState) (force_model : Option String)
    (decide_result : Except PyError Decision) (fresh : String)
    (dispatch : String → Option String → Params → Except PyError Resp)
    (kwargs : Params) (send_ok : ℕ → Bool) : CompletionResult :=
  -- Reset state for new request
  let st := { st0 with outcome_reported := false }
  -- Step 1: routing decision
  let sel := selectStep st.paths force_model decide_result
  -- Step 2: determine trace_id
  let trace_id := resolveTraceId sel.last_decision fresh
  let st1 := { st with
    last_trace_id := some trace_id,
    last_model_id := some sel.model_id,
    last_decision := some sel.last_decision }
  -- Step 3: OTel context with intelligence trace_id
  let otel_context :=
    if trace_id = "" then none else _create_context_with_trace_id trace_id
  -- Step 4: routing span attributes
  let baseAttrs : List (String × AttrVal) :=
    [ ("kalibr.goal", .str st.goal)
    , ("kalibr.trace_id", .str trace_id)
    , ("kalibr.model_id", .str sel.model_id) ]
  let declAttrs : List (String × AttrVal) :=
    match force_model, sel.last_decision with
    | some _, _ => [("kalibr.forced", .bool true)]
    | none, .decided d =>
      [ ("kalibr.path_id", .str (d.path_id.getD ""))
      , ("kalibr.reason", .str (d.reason.getD ""))
      , ("kalibr.exploration", .bool d.exploration)
      , ("kalibr.confidence", .num d.confidence) ]
    | none, _ => [("kalibr.fallback", .bool true)]
  -- Step 5: ordered dispatch list, then the attempt loop
  let selectedPath : DPath :=
    { model := sel.model_id, tools := sel.tool_id, params := some sel.params }
  let paths_to_try := buildPathsToTry selectedPath st.paths
  let lo := attemptLoop trace_id dispatch kwargs send_ok paths_to_try st1 [] 0 none
  let errAttrs : List (String × AttrVal) :=
    match lo.result with
    | .error e => [("error", .bool true), ("error.type", .str e.name)]
    | .ok _ => []
  { result := lo.result, st := lo.st,
    spanAttrs := baseAttrs ++ declAttrs ++ errAttrs,
    reports := lo.reports, otel_context := otel_context }

/-! ## Event batching (`src/kalibr_crewai/callbacks.py`) -/

/-- Events are opaque payload dicts; only identity matters here. -/
abbrev Event := String

/-- `queue.Queue(maxsize=5000)` bound of `EventBatcher._event_queue`. -/
def QUEUE_MAXSIZE : ℕ := 5000

/-- `EventBatcher.enqueue(event)`: `put_nowait`, and on `queue.Full`
drop the oldest buffered event (`get_nowait`) and insert the new one.
The queue is the list of buffered events, oldest first.  The inner
`except: pass` (get on an empty-yet-full queue) cannot fire with a
positive bound; it would leave the queue unchanged. -/
def enqueueEvent (q : List Event) (e : Event) : List Event :=
  if q.length < QUEUE_MAXSIZE then q ++ [e]
  else
    match q with
    | [] => []
    | _ :: rest => rest ++ [e]

/-! ## Intelligence-client singleton accessor
(`src/kalibr/intelligence.py`, `_get_intelligence_client`)

The accessor reads the module global, constructs a `KalibrIntelligence`
when it is `None`, stores it, and returns the global.  There is no lock
in the source, so the read-check and the construct-store are separate
interleavable steps; instances are numbered by construction order. -/

/-- The module-level globals touched by the accessor: the singleton slot
and how many `KalibrIntelligence()` constructions have run. -/
structure SingletonGlobals where
  client : Option ℕ
  created : ℕ
deriving DecidableEq, Repr

/-- One thread executing `_get_intelligence_client`: program counter 0 =
about to evaluate `_intelligence_client is None`, 1 = about to construct
and store (or skip), 2 = about to read the global and return, 3 = done. -/
structure AccessorThread where
  pc : ℕ
  saw_none : Bool := false
  ret : Option ℕ := none
deriving DecidableEq, Repr

/-- One atomic step of a thread running the accessor body against the
globals. -/
def stepAccessor (g : SingletonGlobals) (t : AccessorThread) :
    SingletonGlobals × AccessorThread :=
  match t.pc with
  | 0 => (g, { t with pc := 1, saw_none := g.client.isNone })
  | 1 =>
    if t.saw_none then
      ({ client := some (g.created + 1), created := g.created + 1 },
       { t with pc := 2 })
    else (g, { t with pc := 2 })
  | 2 => (g, { t with pc := 3, ret := g.client })
  | _ => (g, t)

/-- Run a schedule (each entry names the thread to step next) over two
threads that both call the accessor, starting from a fresh module (no
prior instance). -/
def runAccessors (sched : List Bool) :
    SingletonGlobals × AccessorThread × AccessorThread :=
  sched.foldl
    (fun s pick =>
      let (g, t0, t1) := s
      if pick then
        let (g', t1') := stepAccessor g t1
        (g', t0, t1')
      else
        let (g', t0') := stepAccessor g t0
        (g', t0', t1))
    ({ client := none, created := 0 }, { pc := 0 }, { pc := 0 })

/-! ## Outcome failure categories

The repository's tests (`tests/test_insights_sdk.py`) exercise a
`FAILURE_CATEGORIES` constant and client-side validation of
`failure_category` in `KalibrIntelligence.report_outcome` and
`Router.report`, but the implementation is not part of the source
snapshot (`src/kalibr/intelligence.py` predates it); it is modelled
from the spec below. -/

/-- Modelled from the spec: the fixed closed set of failure categories
accepted by outcome reporting (spec section 6), which is missing from
the snapshot of `kalibr/intelligence.py`. -/
def FAILURE_CATEGORIES : List String :=
  [ "timeout", "context_exceeded", "tool_error", "rate_limited"
  , "validation_failed", "hallucination_detected", "user_unsatisfied"
  , "empty_response", "malformed_output", "auth_error", "provider_error"
  , "unknown" ]

/-- An HTTP request performed against the intelligence service. -/
structure HttpCall where
  method : String
  path : String
deriving DecidableEq, Repr

/-- Modelled from the spec: `report_outcome` with a `failure_category`
argument validates it against `FAILURE_CATEGORIES` client-side before
the network call; an invalid category raises `ValueError` immediately
and no HTTP request is made.  The result pairs the list of network
calls performed with the outcome (`ValueError` message or the ack). -/
def report_outcome_validated (failure_category : Option String) :
    List HttpCall × Except String String :=
  match failure_category with
  | some c =>
    if FAILURE_CATEGORIES.contains c then
      ([{ method := "POST", path := "/api/v1/intelligence/report-outcome" }],
       .ok "accepted")
    else
      ([], .error ("Invalid failure_category: " ++ c))
  | none =>
    ([{ method := "POST", path := "/api/v1/intelligence/report-outcome" }],
     .ok "accepted")

/-! ## Dispatch Attempt list: dedup lemmas -/

lemma model_not_mem_seen_of_mem_addRemainingPaths
    {d : List DPath} {seen : List String} {p : DPath}
    (hp : p ∈ addRemainingPaths d seen) : p.model ∉ seen := by
  induction d generalizing seen with
  | nil => simp [addRemainingPaths] at hp
  | cons q rest ih =>
    by_cases hq : q.model ∈ seen
    · rw [addRemainingPaths, if_pos hq] at hp
      exact ih hp
    · rw [addRemainingPaths, if_neg hq] at hp
      rcases List.mem_cons.mp hp with rfl | hp'
      · exact hq
      · have h2 := ih hp'
        exact fun hmem => h2 (List.mem_cons_of_mem _ hmem)

lemma addRemainingPaths_models_nodup (d : List DPath) (seen : List String) :
    ((addRemainingPaths d seen).map DPath.model).Nodup := by
  induction d generalizing seen with
  | nil => simp [addRemainingPaths]
  | cons q rest ih =>
    by_cases hq : q.model ∈ seen
    · rw [addRemainingPaths, if_pos hq]
      exact ih seen
    · rw [addRemainingPaths, if_neg hq]
      rw [List.map_cons, List.nodup_cons]
      refine ⟨fun hmem => ?_, ih _⟩
      obtain ⟨p, hp, hpm⟩ := List.mem_map.mp hmem
      exact model_not_mem_seen_of_mem_addRemainingPaths hp
        (hpm ▸ List.mem_cons_self _ _)

lemma addRemainingPaths_sublist (d : List DPath) (seen : List String) :
    (addRemainingPaths d seen).Sublist d := by
  induction d generalizing seen with
  | nil => simp [addRemainingPaths]
  | cons q rest ih =>
    by_cases hq : q.model ∈ seen
    · rw [addRemainingPaths, if_pos hq]
      exact (ih seen).cons q
    · rw [addRemainingPaths, if_neg hq]
      exact (ih _).cons₂ q

lemma addRemainingPaths_first_occurrence
    {d : List DPath} {seen : List String} {p : DPath}
    (hp : p ∈ addRemainingPaths d seen) :
    d.find? (fun q => q.model == p.model) = some p := by
  induction d generalizing seen with
  | nil => simp [addRemainingPaths] at hp
  | cons q rest ih =>
    by_cases hq : q.model ∈ seen
    · rw [addRemainingPaths, if_pos hq] at hp
      have hnp := model_not_mem_seen_of_mem_addRemainingPaths hp
      have hqp : (q.model == p.model) = false := by
        simp only [beq_eq_false_iff_ne, ne_eq]
        exact fun h => hnp (h ▸ hq)
      rw [List.find?_cons]
      simp only [hqp]
      exact ih hp
    · rw [addRemainingPaths, if_neg hq] at hp
      rcases List.mem_cons.mp hp with rfl | hp'
      · rw [List.find?_cons]
        simp
      · have hnp := model_not_mem_seen_of_mem_addRemainingPaths hp'
        have hqp : (q.model == p.model) = false := by
          simp only [beq_eq_false_iff_ne, ne_eq]
          exact fun h => hnp (h ▸ List.mem_cons_self _ _)
        rw [List.find?_cons]
        simp only [hqp]
        exact ih hp'

lemma mem_models_addRemainingPaths (d : List DPath) (seen : List String)
    (m : String) :
    m ∈ (addRemainingPaths d seen).map DPath.model ↔
      m ∉ seen ∧ m ∈ d.map DPath.model := by
  induction d generalizing seen with
  | nil => simp [addRemainingPaths]
  | cons q rest ih =>
    by_cases hq : q.model ∈ seen
    · rw [addRemainingPaths, if_pos hq, ih, List.map_cons]
      constructor
      · rintro ⟨h1, h2⟩
        exact ⟨h1, List.mem_cons_of_mem _ h2⟩
      · rintro ⟨h1, h2⟩
        rcases List.mem_cons.mp h2 with rfl | h3
        · exact absurd hq h1
        · exact ⟨h1, h3⟩
    · rw [addRemainingPaths, if_neg hq, List.map_cons, List.map_cons]
      constructor
      · intro h
        rcases List.mem_cons.mp h with rfl | h2
        · exact ⟨hq, List.mem_cons_self _ _⟩
        · obtain ⟨h3, h4⟩ := (ih _).mp h2
          exact ⟨fun hm => h3 (List.mem_cons_of_mem _ hm),
            List.mem_cons_of_mem _ h4⟩
      · rintro ⟨h1, h2⟩
        rcases List.mem_cons.mp h2 with rfl | h3
        · exact List.mem_cons_self _ _
        · by_cases hmq : m = q.model
          · exact hmq ▸ List.mem_cons_self _ _
          · refine List.mem_cons_of_mem _ ((ih _).mpr ⟨?_, h3⟩)
            intro hm
            rcases List.mem_cons.mp hm with h | h
            · exact hmq h
            · exact h1 h

/-- C1: for every Router completion call, the Dispatch Attempt list has
no duplicate model ids; the decided (or forced) path is the first
element; the remaining entries are declared paths in declaration order
(a sublist of the declared list); each retained entry is the first
declared path bearing its model id and differs from the selected model
(first occurrence wins); and exactly the selected model plus the
declared models appear. -/
theorem dispatch_attempt_list_spec (selected : DPath) (declared : List DPath) :
    ((buildPathsToTry selected declared).map DPath.model).Nodup ∧
    (buildPathsToTry selected declared).head? = some selected ∧
    (buildPathsToTry selected declared).tail.Sublist declared ∧
    (∀ p ∈ (buildPathsToTry selected declared).tail,
      p.model ≠ selected.model ∧
      declared.find? (fun q => q.model == p.model) = some p) ∧
    (∀ m, m ∈ (buildPathsToTry selected declared).map DPath.model ↔
      (m = selected.model ∨ m ∈ declared.map DPath.model)) := by
  refine ⟨?_, rfl, addRemainingPaths_sublist _ _, ?_, ?_⟩
  · rw [buildPathsToTry, List.map_cons, List.nodup_cons]
    refine ⟨fun hmem => ?_, addRemainingPaths_models_nodup _ _⟩
    obtain ⟨p, hp, hpm⟩ := List.mem_map.mp hmem
    exact model_not_mem_seen_of_mem_addRemainingPaths hp
      (hpm ▸ List.mem_cons_self _ _)
  · intro p hp
    have hnp := model_not_mem_seen_of_mem_addRemainingPaths hp
    exact ⟨fun h => hnp (h ▸ List.mem_cons_self _ _),
      addRemainingPaths_first_occurrence hp⟩
  · intro m
    rw [buildPathsToTry, List.map_cons, List.mem_cons,
      mem_models_addRemainingPaths]
    constructor
    · rintro (rfl | ⟨_, h2⟩)
      · exact Or.inl rfl
      · exact Or.inr h2
    · rintro (rfl | h2)
      · exact Or.inl rfl
      · by_cases hms : m = selected.model
        · exact Or.inl hms
        · exact Or.inr ⟨by simp [hms], h2⟩

/-- Witness for the Dispatch Attempt list properties at a concrete
selected path and declared list containing a duplicate model id. -/
theorem dispatch_attempt_list_spec_witness :
    letI sel : DPath := { model := "gpt-4o" }
    letI d : List DPath :=
      [{ model := "gpt-4o" }, { model := "claude-3-sonnet" },
       { model := "claude-3-sonnet", tools := some "search" }]
    ((buildPathsToTry sel d).map DPath.model).Nodup ∧
    (buildPathsToTry sel d).head? = some sel ∧
    (buildPathsToTry sel d).tail.Sublist d ∧
    (∀ p ∈ (buildPathsToTry sel d).tail,
      p.model ≠ sel.model ∧
      d.find? (fun q => q.model == p.model) = some p) ∧
    (∀ m, m ∈ (buildPathsToTry sel d).map DPath.model ↔
      (m = sel.model ∨ m ∈ d.map DPath.model)) :=
  dispatch_attempt_list_spec _ _

/-! ## C2: decide failure is recovered by local fallback -/

/-- C2: if `decide` raises, the exception is not propagated to the
caller: `completion()` falls back to the first declared path and
returns that path's response (with the generated trace id attached)
whenever its provider call succeeds. -/
theorem decide_failure_falls_back_to_first_path
    (st : RouterState) (e : PyError) (fresh : String)
    (dispatch : String → Option String → Params → Except PyError Resp)
    (kwargs : Params) (send_ok : ℕ → Bool)
    (p0 : DPath) (rest : List DPath) (r : Resp)
    (hpaths : st.paths = p0 :: rest)
    (hok : dispatch p0.model p0.tools (mergeParams (p0.params.getD []) kwargs)
      = .ok r) :
    (completionModel st none (.error e) fresh dispatch kwargs send_ok).result
      = .ok { r with kalibr_trace_id := some fresh } := by
  simp [completionModel, selectStep, resolveTraceId, decisionTraceId,
    buildPathsToTry, attemptLoop, hpaths, hok]

/-- Witness for C2: a concrete router whose decide call failed and whose
first declared path serves the request. -/
theorem decide_failure_falls_back_to_first_path_witness :
    (completionModel
        { goal := "summarize", paths := [{ model := "gpt-4o" }] }
        none (.error { name := "ConnectError", msg := "boom" })
        "c0ffee00c0ffee00c0ffee00c0ffee00"
        (fun m _ _ =>
          if m = "gpt-4o" then .ok { content := "hello" }
          else .error { name := "KeyError", msg := m })
        [] (fun _ => true)).result
      = .ok { content := "hello",
              kalibr_trace_id := some "c0ffee00c0ffee00c0ffee00c0ffee00" } :=
  decide_failure_falls_back_to_first_path _ _ _ _ _ _ _ _ _ rfl rfl

/-! ## C3: at-most-one outcome per Dispatch Attempt cycle -/

/-- C3: within one cycle at most one outcome is accepted: a successful
`report()` sets the reported flag and sends exactly one outcome; a
second `report()` afterwards warns, does not raise, sends nothing and
leaves the state unchanged; and `completion()` clears the reported
flag at the start of each new cycle (its behaviour is independent of
the incoming flag value). -/
theorem at_most_one_outcome_per_cycle
    (st : RouterState) (t : String)
    (succ : Bool) (reason : Option String) (score : Option ℚ)
    (hflag : st.outcome_reported = false)
    (htid : st.last_trace_id = some t) (ht : t ≠ "") :
    (reportStep st succ reason score none true).st.outcome_reported = true ∧
    (reportStep st succ reason score none true).sent =
      [{ trace_id := t, goal := st.goal, success := succ,
         failure_reason := reason, score := score,
         model_id := st.last_model_id }] ∧
    (∀ (succ2 : Bool) (reason2 : Option String) (score2 : Option ℚ)
        (targ2 : Option String) (ok2 : Bool),
      reportStep (reportStep st succ reason score none true).st
          succ2 reason2 score2 targ2 ok2 =
        { st := (reportStep st succ reason score none true).st,
          sent := [], raised := false, warned := true }) ∧
    (∀ (b : Bool) (force : Option String) (dec : Except PyError Decision)
        (fresh : String)
        (dispatch : String → Option String → Params → Except PyError Resp)
        (kwargs : Params) (send_ok : ℕ → Bool),
      completionModel { st with outcome_reported := b } force dec fresh
          dispatch kwargs send_ok
        = completionModel { st with outcome_reported := false } force dec
            fresh dispatch kwargs send_ok) := by
  refine ⟨?_, ?_, ?_, ?_⟩
  · simp [reportStep, pyOrOpt, hflag, htid, ht]
  · simp [reportStep, pyOrOpt, hflag, htid, ht]
  · have hrep : (reportStep st succ reason score none true).st.outcome_reported
        = true := by
      simp [reportStep, pyOrOpt, hflag, htid, ht]
    have general : ∀ (st' : RouterState), st'.outcome_reported = true →
        ∀ (succ2 : Bool) (reason2 : Option String) (score2 : Option ℚ)
          (targ2 : Option String) (ok2 : Bool),
          reportStep st' succ2 reason2 score2 targ2 ok2 =
            { st := st', sent := [], raised := false, warned := true } := by
      intro st' h succ2 reason2 score2 targ2 ok2
      rw [reportStep.eq_def, if_pos h]
    exact fun succ2 reason2 score2 targ2 ok2 =>
      general _ hrep succ2 reason2 score2 targ2 ok2
  · intro b force dec fresh dispatch kwargs send_ok
    rfl

/-- Witness for C3 at a concrete router state. -/
theorem at_most_one_outcome_per_cycle_witness :
    letI st : RouterState :=
      { goal := "extract_email", paths := [{ model := "gpt-4o" }],
        last_trace_id := some "abc123", last_model_id := some "gpt-4o" }
    (reportStep st true none none none true).st.outcome_reported = true ∧
    (reportStep st true none none none true).sent =
      [{ trace_id := "abc123", goal := "extract_email", success := true,
         failure_reason := none, score := none,
         model_id := some "gpt-4o" }] ∧
    (∀ (succ2 : Bool) (reason2 : Option String) (score2 : Option ℚ)
        (targ2 : Option String) (ok2 : Bool),
      reportStep (reportStep st true none none none true).st
          succ2 reason2 score2 targ2 ok2 =
        { st := (reportStep st true none none none true).st,
          sent := [], raised := false, warned := true }) ∧
    (∀ (b : Bool) (force : Option String) (dec : Except PyError Decision)
        (fresh : String)
        (dispatch : String → Option String → Params → Except PyError Resp)
        (kwargs : Params) (send_ok : ℕ → Bool),
      completionModel { st with outcome_reported := b } force dec fresh
          dispatch kwargs send_ok
        = completionModel { st with outcome_reported := false } force dec
            fresh dispatch kwargs send_ok) :=
  at_most_one_outcome_per_cycle _ "abc123" true none none rfl rfl
    (by decide)

/-! ## C10: a failed outcome send never raises and is retriable -/

/-- C10: `Router.report` never raises when the `report_outcome` network
call fails: the send is attempted once, the exception is caught, the
reported flag stays `False` and the state is completely unchanged, so a
subsequent `report()` attempts the send again (and succeeds when the
network does). -/
theorem report_send_failure_state_unchanged
    (st : RouterState) (t : String) (succ : Bool) (reason : Option String)
    (score : Option ℚ)
    (hflag : st.outcome_reported = false)
    (htid : st.last_trace_id = some t) (ht : t ≠ "") :
    reportStep st succ reason score none false =
      { st := st,
        sent := [{ trace_id := t, goal := st.goal, success := succ,
                   failure_reason := reason, score := score,
                   model_id := st.last_model_id }],
        raised := false, warned := false } ∧
    (reportStep st succ reason score none true).sent.length = 1 ∧
    (reportStep st succ reason score none true).st.outcome_reported = true := by
  refine ⟨?_, ?_, ?_⟩ <;> simp [reportStep, pyOrOpt, hflag, htid, ht]

/-- Witness for C10 at a concrete router state. -/
theorem report_send_failure_state_unchanged_witness :
    letI st : RouterState :=
      { goal := "book_meeting", paths := [{ model := "gpt-4o" }],
        last_trace_id := some "feed01", last_model_id := some "gpt-4o" }
    reportStep st false (some "calendar_conflict") none none false =
      { st := st,
        sent := [{ trace_id := "feed01", goal := "book_meeting",
                   success := false,
                   failure_reason := some "calendar_conflict", score := none,
                   model_id := some "gpt-4o" }],
        raised := false, warned := false } ∧
    (reportStep st false (some "calendar_conflict") none none true).sent.length
      = 1 ∧
    (reportStep st false (some "calendar_conflict") none none
      true).st.outcome_reported = true :=
  report_send_failure_state_unchanged _ "feed01" false
    (some "calendar_conflict") none rfl rfl (by decide)

/-! ## Attempt-loop lemmas -/

lemma reportStep_preserves_last_trace_id (st : RouterState) (succ : Bool)
    (reason : Option String) (score : Option ℚ) (targ : Option String)
    (ok : Bool) :
    (reportStep st succ reason score targ ok).st.last_trace_id
      = st.last_trace_id := by
  rw [reportStep.eq_def]
  split
  · rfl
  · cases h : pyOrOpt targ st.last_trace_id with
    | none => simp only [h]
    | some t =>
      simp only [h]
      by_cases ht : t = ""
      · rw [if_pos ht]
      · rw [if_neg ht]
        cases ok <;> rfl

lemma autoReport_preserves_last_trace_id (st : RouterState) (content : String)
    (ok : Bool) :
    (autoReport st content ok).1.last_trace_id = st.last_trace_id := by
  rw [autoReport.eq_def]
  split
  · split
    · rfl
    · exact reportStep_preserves_last_trace_id _ _ _ _ _ _
  · rfl

lemma attemptLoop_preserves_last_trace_id (trace_id : String)
    (dispatch : String → Option String → Params → Except PyError Resp)
    (kwargs : Params) (send_ok : ℕ → Bool) :
    ∀ (ps : List DPath) (st : RouterState) (reports : List OutcomeReport)
      (k : ℕ) (le : Option PyError),
      (attemptLoop trace_id dispatch kwargs send_ok ps st reports k
        le).st.last_trace_id = st.last_trace_id := by
  intro ps
  induction ps with
  | nil => intro st reports k le; rfl
  | cons p rest ih =>
    intro st reports k le
    simp only [attemptLoop]
    cases hd : dispatch p.model p.tools (mergeParams (p.params.getD []) kwargs)
      with
    | ok r =>
      simp only
      rw [autoReport_preserves_last_trace_id]
    | error e =>
      simp only
      rw [ih]
      exact reportStep_preserves_last_trace_id _ _ _ _ _ _

lemma attemptLoop_ok_kalibr_trace_id (trace_id : String)
    (dispatch : String → Option String → Params → Except PyError Resp)
    (kwargs : Params) (send_ok : ℕ → Bool) :
    ∀ (ps : List DPath) (st : RouterState) (reports : List OutcomeReport)
      (k : ℕ) (le : Option PyError) (r : Resp),
      (attemptLoop trace_id dispatch kwargs send_ok ps st reports k le).result
        = .ok r → r.kalibr_trace_id = some trace_id := by
  intro ps
  induction ps with
  | nil => intro st reports k le r h; simp [attemptLoop] at h
  | cons p rest ih =>
    intro st reports k le r h
    simp only [attemptLoop] at h
    cases hd : dispatch p.model p.tools (mergeParams (p.params.getD []) kwargs)
      with
    | ok rr =>
      rw [hd] at h
      simp only [Except.ok.injEq] at h
      rw [← h]
    | error e =>
      rw [hd] at h
      exact ih _ _ _ _ _ h

lemma attemptLoop_result_all_fail (trace_id : String)
    (dispatch : String → Option String → Params → Except PyError Resp)
    (kwargs : Params) (send_ok : ℕ → Bool) (f : DPath → PyError) :
    ∀ (ps : List DPath) (lp : DPath),
      (∀ p ∈ ps, dispatch p.model p.tools
        (mergeParams (p.params.getD []) kwargs) = .error (f p)) →
      ps.getLast? = some lp →
      ∀ (st : RouterState) (reports : List OutcomeReport) (k : ℕ)
        (le : Option PyError),
      (attemptLoop trace_id dispatch kwargs send_ok ps st reports k le).result
        = .error (f lp) := by
  intro ps
  induction ps with
  | nil => intro lp _ h; simp at h
  | cons p rest ih =>
    intro lp hfail h st reports k le
    have hp := hfail p (List.mem_cons_self _ _)
    simp only [attemptLoop, hp]
    cases rest with
    | nil =>
      have hlp : lp = p := by simpa using h.symm
      subst hlp
      simp [attemptLoop]
    | cons q rest2 =>
      have h2 : (q :: rest2).getLast? = some lp := by
        rwa [List.getLast?_cons_cons] at h
      exact ih lp (fun p' hp' => hfail p' (List.mem_cons_of_mem _ hp'))
        h2 _ _ _ _

/-! ## C4: total failure re-raises the last exception -/

/-- C4: when every path in the Dispatch Attempt list fails,
`completion()` marks the routing span as errored (`error = True` plus
the error-type attribute) and re-raises the exception from the last
attempted path, so the caller receives exactly that exception. -/
theorem all_paths_fail_raises_last_and_marks_span
    (st : RouterState) (force : Option String) (dec : Except PyError Decision)
    (fresh : String)
    (dispatch : String → Option String → Params → Except PyError Resp)
    (kwargs : Params) (send_ok : ℕ → Bool)
    (f : DPath → PyError) (lp : DPath)
    (hfail : ∀ p ∈ buildPathsToTry
        { model := (selectStep st.paths force dec).model_id,
          tools := (selectStep st.paths force dec).tool_id,
          params := some (selectStep st.paths force dec).params }
        st.paths,
      dispatch p.model p.tools (mergeParams (p.params.getD []) kwargs)
        = .error (f p))
    (hlast : (buildPathsToTry
        { model := (selectStep st.paths force dec).model_id,
          tools := (selectStep st.paths force dec).tool_id,
          params := some (selectStep st.paths force dec).params }
        st.paths).getLast? = some lp) :
    (completionModel st force dec fresh dispatch kwargs send_ok).result
      = .error (f lp) ∧
    ("error", AttrVal.bool true)
      ∈ (completionModel st force dec fresh dispatch kwargs send_ok).spanAttrs ∧
    ("error.type", AttrVal.str (f lp).name)
      ∈ (completionModel st force dec fresh dispatch kwargs send_ok).spanAttrs
    := by
  have hres := attemptLoop_result_all_fail
    (resolveTraceId (selectStep st.paths force dec).last_decision fresh)
    dispatch kwargs send_ok f _ lp hfail hlast
  refine ⟨?_, ?_, ?_⟩
  · simp only [completionModel]
    exact hres _ _ _ _
  · simp only [completionModel]
    rw [hres _ _ _ _]
    simp
  · simp only [completionModel]
    rw [hres _ _ _ _]
    simp

/-- Witness for C4: a single-path router whose provider always fails. -/
theorem all_paths_fail_raises_last_and_marks_span_witness :
    letI cm := completionModel
      { goal := "qa", paths := [{ model := "m1" }] } none
      (.error { name := "ConnectError", msg := "down" })
      "0123456789abcdef0123456789abcdef"
      (fun m _ _ => .error { name := "APIError", msg := m })
      [] (fun _ => true)
    cm.result = .error { name := "APIError", msg := "m1" } ∧
    ("error", AttrVal.bool true) ∈ cm.spanAttrs ∧
    ("error.type", AttrVal.str "APIError") ∈ cm.spanAttrs :=
  all_paths_fail_raises_last_and_marks_span _ _ _ _ _ _ _
    (fun p => { name := "APIError", msg := p.model }) _
    (fun _ _ => rfl) rfl

/-! ## C7: trace-id fallback -/

/-- C7 counterexample: a decision whose trace id is the all-zero
32-hex-digit sentinel.  The claim says the trace id attached to the
call (stored as last trace id and on the response) is then a freshly
generated random identifier; in the code the sentinel string itself is
stored and attached (only the OTel context bridge declines it), so the
attached id is not the fresh one. -/
theorem zero_sentinel_trace_id_kept_counterexample :
    letI cm := completionModel
      { goal := "g", paths := [{ model := "gpt-4o" }] } none
      (.ok { model_id := some "gpt-4o",
             trace_id := some "00000000000000000000000000000000" })
      "feedfacefeedfacefeedfacefeedface"
      (fun _ _ _ => .ok { content := "out" }) [] (fun _ => true)
    cm.st.last_trace_id = some "00000000000000000000000000000000" ∧
    cm.result
      = .ok { content := "out",
              kalibr_trace_id := some "00000000000000000000000000000000" } ∧
    cm.otel_context = none ∧
    "00000000000000000000000000000000" ≠ "feedfacefeedfacefeedfacefeedface"
    := by
  refine ⟨rfl, rfl, by decide, by decide⟩

/-- C7 amended: if the decision carries no usable trace id (absent or
empty), the trace id stored as last trace id and attached to the
returned response is the freshly generated 128-bit identifier.  If the
decision's trace id parses to the all-zero sentinel, the context bridge
produces no OTel context (so the routing span falls back to a locally
generated span context), while the stored and attached trace id remain
the decision's sentinel string. -/
theorem trace_id_fallback_amended
    (st : RouterState) (force : Option String) (dec : Except PyError Decision)
    (fresh : String)
    (dispatch : String → Option String → Params → Except PyError Resp)
    (kwargs : Params) (send_ok : ℕ → Bool) :
    (decisionTraceId (selectStep st.paths force dec).last_decision = none ∨
     decisionTraceId (selectStep st.paths force dec).last_decision = some "" →
      (completionModel st force dec fresh dispatch kwargs
        send_ok).st.last_trace_id = some fresh ∧
      (∀ r, (completionModel st force dec fresh dispatch kwargs
          send_ok).result = .ok r → r.kalibr_trace_id = some fresh)) ∧
    (∀ z, decisionTraceId (selectStep st.paths force dec).last_decision
        = some z → z ≠ "" → pyIntHex z = some 0 →
      (completionModel st force dec fresh dispatch kwargs
        send_ok).st.last_trace_id = some z ∧
      (completionModel st force dec fresh dispatch kwargs
        send_ok).otel_context = none ∧
      (∀ r, (completionModel st force dec fresh dispatch kwargs
          send_ok).result = .ok r → r.kalibr_trace_id = some z)) := by
  constructor
  · intro h
    have htr : resolveTraceId (selectStep st.paths force dec).last_decision
        fresh = fresh := by
      rcases h with h | h
      · rw [resolveTraceId, h]
      · rw [resolveTraceId, h]
        simp
    constructor
    · simp only [completionModel]
      rw [attemptLoop_preserves_last_trace_id]
      simp [htr]
    · intro r hr
      simp only [completionModel] at hr
      have := attemptLoop_ok_kalibr_trace_id _ _ _ _ _ _ _ _ _ _ hr
      rwa [htr] at this
  · intro z hz hzne hzero
    have htr : resolveTraceId (selectStep st.paths force dec).last_decision
        fresh = z := by
      rw [resolveTraceId, hz]
      simp [hzne]
    refine ⟨?_, ?_, ?_⟩
    · simp only [completionModel]
      rw [attemptLoop_preserves_last_trace_id]
      simp [htr]
    · simp only [completionModel]
      rw [htr, if_neg hzne, _create_context_with_trace_id, hzero]
      simp
    · intro r hr
      simp only [completionModel] at hr
      have := attemptLoop_ok_kalibr_trace_id _ _ _ _ _ _ _ _ _ _ hr
      rwa [htr] at this

/-- Witness for the amended C7, applying it once to a decision with no
trace id and once to the all-zero sentinel decision. -/
theorem trace_id_fallback_amended_witness :
    ((completionModel { goal := "g", paths := [{ model := "gpt-4o" }] } none
        (.ok { model_id := some "gpt-4o" })
        "0f0f0f0f0f0f0f0f0f0f0f0f0f0f0f0f"
        (fun _ _ _ => .ok { content := "out" }) []
        (fun _ => true)).st.last_trace_id
      = some "0f0f0f0f0f0f0f0f0f0f0f0f0f0f0f0f") ∧
    ((completionModel { goal := "g", paths := [{ model := "gpt-4o" }] } none
        (.ok { model_id := some "gpt-4o",
               trace_id := some "00000000000000000000000000000000" })
        "0f0f0f0f0f0f0f0f0f0f0f0f0f0f0f0f"
        (fun _ _ _ => .ok { content := "out" }) []
        (fun _ => true)).otel_context = none) :=
  ⟨((trace_id_fallback_amended
      { goal := "g", paths := [{ model := "gpt-4o" }] } none
      (.ok { model_id := some "gpt-4o" }) "0f0f0f0f0f0f0f0f0f0f0f0f0f0f0f0f"
      (fun _ _ _ => .ok { content := "out" }) [] (fun _ => true)).1
      (Or.inl rfl)).1,
   (((trace_id_fallback_amended
      { goal := "g", paths := [{ model := "gpt-4o" }] } none
      (.ok { model_id := some "gpt-4o",
             trace_id := some "00000000000000000000000000000000" })
      "0f0f0f0f0f0f0f0f0f0f0f0f0f0f0f0f"
      (fun _ _ _ => .ok { content := "out" }) [] (fun _ => true)).2
      "00000000000000000000000000000000" rfl (by decide) (by decide)).2).1⟩

/-! ## C5: cost computation -/

/-- C5: `compute_cost("openai", "gpt-4o", 1000, 500)` is exactly
0.0075 USD; the date-suffixed name "gpt-4o-2024-05-13" is normalized to
"gpt-4o" so its cost agrees for every token count; and in general
`compute_cost` is the per-million-token linear formula over the looked
up prices, rounded to 6 decimal places. -/
theorem compute_cost_gpt4o_spec :
    compute_cost "openai" "gpt-4o" 1000 500 = 0.0075 ∧
    normalize_model_name "openai" "gpt-4o-2024-05-13" = "gpt-4o" ∧
    (∀ i o : ℕ, compute_cost "openai" "gpt-4o-2024-05-13" i o
      = compute_cost "openai" "gpt-4o" i o) ∧
    (∀ (v m : String) (i o : ℕ), compute_cost v m i o
      = round6 ((i : ℚ) / 1000000 * (get_pricing v m).1.1
        + (o : ℚ) / 1000000 * (get_pricing v m).1.2)) := by
  refine ⟨?_, by decide, fun i o => rfl, fun v m i o => rfl⟩
  have h : compute_cost "openai" "gpt-4o" 1000 500
      = round6 (((1000 : ℕ) : ℚ) / 1000000 * 2.50
        + ((500 : ℕ) : ℚ) / 1000000 * 10.00) := rfl
  rw [h, round6]
  have hfloor : ⌊(((1000 : ℕ) : ℚ) / 1000000 * 2.50
      + ((500 : ℕ) : ℚ) / 1000000 * 10.00) * 1000000 + 1 / 2⌋ = 7500 := by
    rw [Int.floor_eq_iff]
    norm_num
  rw [hfloor]
  norm_num

/-! ## C6: client-side failure-category validation (spec-modelled) -/

/-- C6: an outcome report whose failure category is outside the fixed
closed set fails immediately with a client-side validation error and
performs zero network calls. -/
theorem invalid_failure_category_rejected_before_network
    (c : String) (hc : c ∉ FAILURE_CATEGORIES) :
    (report_outcome_validated (some c)).1 = [] ∧
    (report_outcome_validated (some c)).2
      = .error ("Invalid failure_category: " ++ c) := by
  constructor <;> simp [report_outcome_validated, hc]

/-- Witness for C6 at the concrete invalid category from the spec. -/
theorem invalid_failure_category_rejected_before_network_witness :
    (report_outcome_validated (some "not_a_real_category")).1 = [] ∧
    (report_outcome_validated (some "not_a_real_category")).2
      = .error ("Invalid failure_category: " ++ "not_a_real_category") :=
  invalid_failure_category_rejected_before_network "not_a_real_category"
    (by decide)

/-! ## C8: the bounded event queue drops the oldest entry when full -/

/-- C8: enqueue on the bounded queue (capacity 5000) never grows the
queue beyond its capacity, and on a full queue it removes the oldest
buffered event and appends the new one, which is retained at the
back. -/
theorem enqueue_full_queue_drops_oldest (q : List Event) (e : Event)
    (hq : q.length ≤ QUEUE_MAXSIZE) :
    (enqueueEvent q e).length ≤ QUEUE_MAXSIZE ∧
    (q.length = QUEUE_MAXSIZE →
      enqueueEvent q e = q.tail ++ [e] ∧
      (enqueueEvent q e).length = QUEUE_MAXSIZE ∧
      (enqueueEvent q e).getLast? = some e) := by
  by_cases h : q.length < QUEUE_MAXSIZE
  · rw [enqueueEvent.eq_def, if_pos h]
    refine ⟨by simpa using h, fun hfull => absurd hfull (by omega)⟩
  · have hfull : q.length = QUEUE_MAXSIZE := le_antisymm hq (not_lt.mp h)
    cases q with
    | nil => simp [QUEUE_MAXSIZE] at hfull
    | cons a as =>
      rw [enqueueEvent.eq_def, if_neg h]
      have hlen : as.length + 1 = QUEUE_MAXSIZE := by
        simpa using hfull
      refine ⟨by simp; omega, fun _ => ⟨rfl, by simp; omega,
        List.getLast?_concat _⟩⟩

/-- Witness for C8 on a concrete full queue. -/
theorem enqueue_full_queue_drops_oldest_witness :
    (enqueueEvent (List.replicate 5000 "old") "new").length ≤ QUEUE_MAXSIZE ∧
    ((List.replicate 5000 "old" : List Event).length = QUEUE_MAXSIZE →
      enqueueEvent (List.replicate 5000 "old") "new"
        = (List.replicate 5000 "old" : List Event).tail ++ ["new"] ∧
      (enqueueEvent (List.replicate 5000 "old") "new").length
        = QUEUE_MAXSIZE ∧
      (enqueueEvent (List.replicate 5000 "old") "new").getLast?
        = some "new") :=
  enqueue_full_queue_drops_oldest (List.replicate 5000 "old") "new"
    (by rw [List.length_replicate]; exact Nat.le_refl _)

/-! ## C9: the singleton accessor is not synchronized -/

/-- C9: the claim states that the Decision Client accessor creates
exactly one `KalibrIntelligence` instance under any concurrent
first-access because construction is synchronized check-lock-check; the
source accessor has no lock, and under the interleaving in which both
threads pass the `is None` check before either stores, two instances
are constructed (the second overwriting the first).  The schedule
below is: thread 0 check, thread 1 check, thread 0 construct+store,
thread 1 construct+store. -/
theorem unsynchronized_accessor_creates_two_instances :
    (runAccessors [false, true, false, true]).1.created = 2 ∧
    (runAccessors [false, true, false, true]).1.client = some 2 := by
  decide

end Kalibr
